import Mathlib

set_option maxHeartbeats 1000000
set_option maxRecDepth 8192

/-
Shallow embedding of src/app.py (Target Brand Insights Scraper).

The Python program scrapes product listings from target.com.  Pure data
manipulation (JSON field extraction, record construction, URL building,
pagination control flow) is translated into executable Lean definitions.
The network is modelled as a function from URLs to fetch results; HTML and
regex scanning over raw page text is modelled by the already-decoded data
each scanning step consumes (script-tag JSON payloads, per-pattern regex
match lists).  Streamlit UI calls are modelled as an explicit effect trace.
Python floats are modelled as exact rationals; float formatting is the
corresponding exact decimal rounding.
-/

/-- JSON-like values as produced by Python's json.loads: None, bool, int,
float, str, list, and dict (string-keyed, insertion-ordered).  Floats are
modelled as exact rationals. -/
inductive Json where
  | null : Json
  | bool (b : Bool) : Json
  | int (i : Int) : Json
  | float (q : Rat) : Json
  | str (s : String) : Json
  | arr (items : List Json) : Json
  | obj (entries : List (String × Json)) : Json

/-- A scraped product record: a Python dict with string keys, in insertion
order, as built by the scraper. -/
abbrev ProductRecord := List (String × Json)

/-- Python `d[k]` / `k in d` lookup on a dict: the value bound to the first
(and in a dict, only) entry with key `k`. -/
def lookupKV (kvs : List (String × Json)) (k : String) : Option Json :=
  match kvs.find? (fun kv => kv.1 == k) with
  | some kv => some kv.2
  | none => none

/-- Python `d[k] = v` on a dict: update the value in place when the key is
present, otherwise append the new entry (insertion order). -/
def pySet (d : List (String × Json)) (k : String) (v : Json) : List (String × Json) :=
  if d.any (fun kv => kv.1 == k) then d.map (fun kv => if kv.1 == k then (k, v) else kv)
  else d ++ [(k, v)]

/-- The keys of a dict, in insertion order. -/
def keysOf (d : List (String × Json)) : List String := d.map (fun kv => kv.1)

/-- Python truthiness of a JSON-derived value. -/
def pyTruthy : Json → Bool
  | Json.null => false
  | Json.bool b => b
  | Json.int i => i != 0
  | Json.float q => q != 0
  | Json.str s => s != ""
  | Json.arr items => !items.isEmpty
  | Json.obj entries => !entries.isEmpty

/-- Python str.lower(), restricted to ASCII case mapping. -/
def pyLower (s : String) : String := String.mk (s.data.map Char.toLower)

/-- Auxiliary: substring test on char lists (Python `needle in hay`). -/
def infixAux (n : List Char) : List Char → Bool
  | [] => n.isEmpty
  | c :: rest => n.isPrefixOf (c :: rest) || infixAux n rest

/-- Python substring containment `needle in hay`. -/
def strContains (hay needle : String) : Bool := infixAux needle.data hay.data

/-- Python str.isdigit(), restricted to ASCII digits. -/
def isDigits (s : String) : Bool := !s.isEmpty && s.data.all Char.isDigit

/-- Python s.replace(".", ""): drop every dot. -/
def dropDots (s : String) : String := String.mk (s.data.filter (fun c => c != '.'))

/-- Floor-based round-half-to-even, used to model printf-style float
formatting of Python floats (approximated on exact rationals). -/
def roundHalfEven (x : Rat) : Int :=
  let f := x.floor
  let r := x - f
  if r < 1 / 2 then f
  else if 1 / 2 < r then f + 1
  else if f % 2 = 0 then f else f + 1

/-- Left-pad a numeral string with zeros to the given width. -/
def padZeros (s : String) (n : Nat) : String :=
  if s.length < n then String.mk (List.replicate (n - s.length) '0') ++ s else s

/-- Python f-string fixed-point formatting `{x:.prec f}` of a float,
modelled as exact decimal rounding of the rational value. -/
def formatFixed (q : Rat) (prec : Nat) : String :=
  let n := roundHalfEven (q * (10 : Rat) ^ prec)
  let sign := if n < 0 then "-" else ""
  let m := n.natAbs
  let base := 10 ^ prec
  if prec = 0 then sign ++ toString m
  else sign ++ toString (m / base) ++ "." ++ padZeros (toString (m % base)) prec

/-- Python int() truncation toward zero of a float value. -/
def ratTrunc (q : Rat) : Int := q.num.tdiv q.den

/-- Strip trailing zeros after the decimal point, keeping at least one
fractional digit. -/
def stripZeros (s : String) : String :=
  if strContains s "." then
    let r := s.data.reverse.dropWhile (fun c => c == '0')
    match r with
    | '.' :: r2 => String.mk (('0' :: '.' :: r2).reverse)
    | _ => String.mk r.reverse
  else s

/-- Python repr/str of a float, approximated by an exact decimal expansion
(17 fractional digits, trailing zeros stripped; integral floats print with
a trailing ".0" as in Python). -/
def pyFloatRepr (q : Rat) : String :=
  if q.den = 1 then toString q.num ++ ".0"
  else stripZeros (formatFixed q 17)

/-- An ASCII single-quote string (used by the Python repr of strings). -/
def pySquote : String := String.singleton (Char.ofNat 39)

mutual

/-- Python str()/repr() of a JSON-derived value.  The flag selects repr
semantics (strings quoted), as used for elements of containers. -/
def pyStrCore (asRepr : Bool) : Json → String
  | Json.null => "None"
  | Json.bool b => if b then "True" else "False"
  | Json.int i => toString i
  | Json.float q => pyFloatRepr q
  | Json.str s => if asRepr then pySquote ++ s ++ pySquote else s
  | Json.arr items => "[" ++ String.intercalate ", " (pyReprList items) ++ "]"
  | Json.obj entries => "\x7b" ++ String.intercalate ", " (pyReprKVs entries) ++ "\x7d"

/-- The repr of each list element, in order. -/
def pyReprList : List Json → List String
  | [] => []
  | j :: rest => pyStrCore true j :: pyReprList rest

/-- The repr of each dict entry, in order. -/
def pyReprKVs : List (String × Json) → List String
  | [] => []
  | (k, v) :: rest =>
    (pySquote ++ k ++ pySquote ++ ": " ++ pyStrCore true v) :: pyReprKVs rest

end

/-- Python str() of a JSON-derived value. -/
def pyStr (v : Json) : String := pyStrCore false v

/-- UTF-8 encoding of a Unicode code point. -/
def utf8Bytes (n : Nat) : List Nat :=
  if n < 128 then [n]
  else if n < 2048 then [192 + n / 64, 128 + n % 64]
  else if n < 65536 then [224 + n / 4096, 128 + (n / 64) % 64, 128 + n % 64]
  else [240 + n / 262144, 128 + (n / 4096) % 64, 128 + (n / 64) % 64, 128 + n % 64]

/-- Uppercase hex digit for a value below 16. -/
def hexDigit (n : Nat) : Char := if n < 10 then Char.ofNat (48 + n) else Char.ofNat (55 + n)

/-- Percent-encoding of one byte. -/
def percentByte (b : Nat) : String := "%" ++ String.mk [hexDigit (b / 16), hexDigit (b % 16)]

/-- Bytes left unencoded by urllib.parse.quote with default safe "/":
ASCII letters, digits, and the characters underscore, dot, dash, tilde,
slash. -/
def isUnquotedByte (b : Nat) : Bool :=
  (65 ≤ b && b ≤ 90) || (97 ≤ b && b ≤ 122) || (48 ≤ b && b ≤ 57) ||
    b == 95 || b == 46 || b == 45 || b == 126 || b == 47

/-- urllib.parse.quote of one character (via its UTF-8 bytes). -/
def quoteChar (c : Char) : String :=
  String.join ((utf8Bytes c.toNat).map
    (fun b => if isUnquotedByte b then String.singleton (Char.ofNat b) else percentByte b))

/-- urllib.parse.quote with the default safe set. -/
def pyQuote (s : String) : String := String.join (s.data.map quoteChar)

/-- Leftmost regex search for a literal followed by a nonempty greedy run
of characters satisfying `ok` (patterns of the shape lit([class]+)),
returning the captured group. -/
def reSearchAux (lit : List Char) (ok : Char → Bool) : List Char → Option String
  | [] => none
  | c :: rest =>
    if lit.isPrefixOf (c :: rest) then
      let run := ((c :: rest).drop lit.length).takeWhile ok
      if run.isEmpty then reSearchAux lit ok rest else some (String.mk run)
    else reSearchAux lit ok rest

/-- Regex search `re.search(lit ++ "([class]+)", s)` returning group 1. -/
def reSearchLitThenPlus (lit : String) (ok : Char → Bool) (s : String) : Option String :=
  reSearchAux lit.data ok s.data

/-- A script tag found on a fetched page: one with no text, one whose text
is not valid JSON, or one whose text decodes to a JSON value. -/
inductive JScript where
  | noString : JScript
  | invalid : JScript
  | valid (data : Json) : JScript

/-- The data the extraction code consumes from a fetched search page:
the decoded application/json script tags (method 1), and, for each of the
three inline-JavaScript regex patterns, the findall match list with each
match run through json.loads (method 2). -/
structure PageContent where
  scripts : List JScript
  patternMatches : List (List (Option Json))

/-- Result of session.get on a URL: a raised exception, or a response with
a status code and page content. -/
inductive FetchResult where
  | exn : FetchResult
  | ok (status : Nat) (content : PageContent) : FetchResult

namespace TargetScraper

/-- TargetScraper.looks_like_product: the dict carries one of the known
product indicator keys. -/
def looks_like_product (item : Json) : Bool :=
  match item with
  | Json.obj kvs =>
    ["tcin", "title", "price", "item", "product_description"].any
      (fun ind => kvs.any (fun kv => kv.1 == ind))
  | _ => false

/-- The Title cell of a record as read by product_info.get("Title", ""):
a missing Title is the empty string.  (Records built by
parse_product_json always hold a string Title, so the non-string case is
unreachable there.) -/
def recordTitle (product_info : ProductRecord) : String :=
  match lookupKV product_info "Title" with
  | some (Json.str s) => s
  | _ => ""

/-- TargetScraper.is_relevant_product: an empty search term accepts every
record; otherwise the lowercased term must occur in the lowercased Title. -/
def is_relevant_product (product_info : ProductRecord) (search_term : String) : Bool :=
  if search_term == "" then true
  else strContains (pyLower (recordTitle product_info)) (pyLower search_term)

/-- The location walk in parse_product_json: follow a path of dict keys,
yielding None as soon as the current value is not a dict carrying the key. -/
def pyWalk (v : Json) : List String → Option Json
  | [] => some v
  | k :: rest =>
    match v with
    | Json.obj kvs =>
      match lookupKV kvs k with
      | some v2 => pyWalk v2 rest
      | none => none
    | _ => none

/-- The walk result as the Python variable `value`: a JSON null is the
Python None object, indistinguishable from a failed walk. -/
def pyWalkVal (v : Json) (path : List String) : Option Json :=
  match pyWalk v path with
  | some Json.null => none
  | r => r

/-- A step key in the image-location walk: a dict key or a list index. -/
inductive PathKey where
  | s (k : String) : PathKey
  | i (n : Nat) : PathKey

/-- The image-location walk: dict keys as in pyWalk, with integer keys
additionally indexing into lists (an integer key never occurs in a
JSON-derived string-keyed dict). -/
def pyWalkP (v : Json) : List PathKey → Option Json
  | [] => some v
  | PathKey.s k :: rest =>
    match v with
    | Json.obj kvs =>
      match lookupKV kvs k with
      | some v2 => pyWalkP v2 rest
      | none => none
    | _ => none
  | PathKey.i n :: rest =>
    match v with
    | Json.arr xs =>
      if h : n < xs.length then pyWalkP (xs.get ⟨n, h⟩) rest else none
    | _ => none

/-- Title-style location cascade: the first location whose walk yields a
truthy string wins, otherwise N/A. -/
def firstTruthyStr (d : Json) : List (List String) → String
  | [] => "N/A"
  | loc :: rest =>
    match pyWalk d loc with
    | some (Json.str s) => if s == "" then firstTruthyStr d rest else s
    | _ => firstTruthyStr d rest

/-- Image-location cascade (paths may index into lists). -/
def firstTruthyStrP (d : Json) : List (List PathKey) → String
  | [] => "N/A"
  | loc :: rest =>
    match pyWalkP d loc with
    | some (Json.str s) => if s == "" then firstTruthyStrP d rest else s
    | _ => firstTruthyStrP d rest

/-- Python numeric values accepted by isinstance(value, (int, float)):
bools, ints and floats, coerced to a rational. -/
def jsonAsNumber : Json → Option Rat
  | Json.bool b => some (if b then 1 else 0)
  | Json.int i => some (i : Rat)
  | Json.float q => some q
  | _ => none

/-- Price cascade: the loop breaks at the first location whose value is
not None; a numeric value prints as a dollar amount, a dollar-bearing or
all-digit string passes through, and any other value leaves N/A. -/
def priceOf (d : Json) : List (List String) → String
  | [] => "N/A"
  | loc :: rest =>
    match pyWalkVal d loc with
    | none => priceOf d rest
    | some v =>
      match jsonAsNumber v with
      | some q => "$" ++ formatFixed q 2
      | none =>
        match v with
        | Json.str s => if strContains s "$" || isDigits (dropDots s) then s else "N/A"
        | _ => "N/A"

/-- Rating cascade: the loop breaks only when a location yields a numeric
value, formatted to one decimal. -/
def ratingOf (d : Json) : List (List String) → String
  | [] => "N/A"
  | loc :: rest =>
    match pyWalkVal d loc with
    | some v =>
      match jsonAsNumber v with
      | some q => formatFixed q 1
      | none => ratingOf d rest
    | none => ratingOf d rest

/-- Review-count cascade: the loop breaks only when a location yields a
numeric value, truncated with int(). -/
def reviewOf (d : Json) : List (List String) → String
  | [] => "N/A"
  | loc :: rest =>
    match pyWalkVal d loc with
    | some v =>
      match jsonAsNumber v with
      | some q => toString (ratTrunc q)
      | none => reviewOf d rest
    | none => reviewOf d rest

/-- TargetScraper.parse_product_json: build the product record from a JSON
dict.  On a non-dict the .get call raises AttributeError, which the
function catches and converts to None. -/
def parse_product_json (product_data : Json) : Option ProductRecord :=
  match product_data with
  | Json.obj kvs =>
    let d := Json.obj kvs
    let tcin := pyStr ((lookupKV kvs "tcin").getD ((lookupKV kvs "id").getD (Json.str "N/A")))
    let title := firstTruthyStr d
      [["item", "product_description", "title"], ["title"], ["display_name"], ["name"],
       ["product_description", "title"]]
    let image := firstTruthyStrP d
      [[PathKey.s "item", PathKey.s "enrichment", PathKey.s "images",
        PathKey.s "primary_image_url"],
       [PathKey.s "images", PathKey.s "primary_image_url"],
       [PathKey.s "primary_image_url"],
       [PathKey.s "image_url"],
       [PathKey.s "item", PathKey.s "enrichment", PathKey.s "images",
        PathKey.s "alternate_image_urls", PathKey.i 0]]
    let price := priceOf d
      [["price", "current_retail"], ["price", "formatted_current_price"], ["current_retail"],
       ["formatted_current_price"], ["price"]]
    let rating := ratingOf d
      [["ratings_and_reviews", "statistics", "rating", "average"], ["rating", "average"],
       ["average_rating"], ["rating"]]
    let review := reviewOf d
      [["ratings_and_reviews", "statistics", "rating", "count"], ["rating", "count"],
       ["review_count"], ["reviews"]]
    let url := if tcin ≠ "N/A" then "https://www.target.com/p/-/A-" ++ tcin else "N/A"
    some [("TCIN", Json.str tcin), ("Title", Json.str title), ("Image_URL", Json.str image),
          ("Price", Json.str price), ("Rating", Json.str rating),
          ("Review_Count", Json.str review), ("URL", Json.str url)]
  | _ => none

/-- Whether a dict key names a product array in extract_products_from_json. -/
def isProductKey (k : String) : Bool :=
  pyLower k == "products" || pyLower k == "items" || pyLower k == "results"

/-- One item of a product array: parse it when it looks like a product and
keep the record when it is truthy and relevant to the search term. -/
def productOfItem (search_term : String) (item : Json) : Option ProductRecord :=
  if looks_like_product item then
    match parse_product_json item with
    | some pi => if !pi.isEmpty && is_relevant_product pi search_term then some pi else none
    | none => none
  else none

/-- The isinstance(value, list) test, as a projection to the list items. -/
def jArrItems : Json → Option (List Json)
  | Json.arr items => some items
  | _ => none

mutual

/-- The find_products_recursive closure in extract_products_from_json:
walk the JSON structure; dict entries whose key names a product array
(and is a list) contribute their parsed, relevant items; every other
value is recursed into.  The closure appends into one shared list while
iterating, so the result is the concatenation in iteration order. -/
def find_products_recursive (search_term : String) : Json → List ProductRecord
  | Json.obj kvs => findInEntries search_term kvs
  | Json.arr xs => findInItems search_term xs
  | _ => []

/-- The dict-iteration of find_products_recursive, in insertion order. -/
def findInEntries (search_term : String) : List (String × Json) → List ProductRecord
  | [] => []
  | (k, v) :: rest =>
    (if isProductKey k then
      match jArrItems v with
      | some items => items.filterMap (productOfItem search_term)
      | none => find_products_recursive search_term v
    else find_products_recursive search_term v) ++ findInEntries search_term rest

/-- The list-iteration of find_products_recursive, in order. -/
def findInItems (search_term : String) : List Json → List ProductRecord
  | [] => []
  | j :: rest => find_products_recursive search_term j ++ findInItems search_term rest

end

/-- TargetScraper.extract_products_from_json. -/
def extract_products_from_json (data : Json) (search_term : String) : List ProductRecord :=
  find_products_recursive search_term data

/-- The TCIN cell of a record, as the displayed string. -/
def recordTCIN (r : ProductRecord) : String :=
  match lookupKV r "TCIN" with
  | some (Json.str s) => s
  | _ => ""

/-- Comparison definition for the relevance claim: one product-array item
with the relevance filter removed (the truthiness check on the parsed
record is kept). -/
def productOfItemUnfiltered (item : Json) : Option ProductRecord :=
  if looks_like_product item then
    match parse_product_json item with
    | some pi => if !pi.isEmpty then some pi else none
    | none => none
  else none

mutual

/-- Comparison definition for the relevance claim: the same structural
search as find_products_recursive with the relevance filter removed. -/
def find_products_unfiltered : Json → List ProductRecord
  | Json.obj kvs => findInEntriesUnfiltered kvs
  | Json.arr xs => findInItemsUnfiltered xs
  | _ => []

/-- Dict-iteration of find_products_unfiltered. -/
def findInEntriesUnfiltered : List (String × Json) → List ProductRecord
  | [] => []
  | (k, v) :: rest =>
    (if isProductKey k then
      match jArrItems v with
      | some items => items.filterMap productOfItemUnfiltered
      | none => find_products_unfiltered v
    else find_products_unfiltered v) ++ findInEntriesUnfiltered rest

/-- List-iteration of find_products_unfiltered. -/
def findInItemsUnfiltered : List Json → List ProductRecord
  | [] => []
  | j :: rest => find_products_unfiltered j ++ findInItemsUnfiltered rest

end

/-- Method 1 of extract_product_data_from_page: scan the
application/json script tags, keeping the first nonempty extraction
(scripts with no text are skipped by the truthiness guard, undecodable
ones by the JSONDecodeError handler). -/
def scanScriptTags (search_term : String) : List JScript → List ProductRecord
  | [] => []
  | JScript.noString :: rest => scanScriptTags search_term rest
  | JScript.invalid :: rest => scanScriptTags search_term rest
  | JScript.valid d :: rest =>
    let found := extract_products_from_json d search_term
    if found.isEmpty then scanScriptTags search_term rest else found

/-- Method 2, inner loop: scan one pattern's match list, keeping the first
nonempty extraction (undecodable matches are skipped). -/
def scanMatches (search_term : String) : List (Option Json) → List ProductRecord
  | [] => []
  | none :: rest => scanMatches search_term rest
  | some d :: rest =>
    let found := extract_products_from_json d search_term
    if found.isEmpty then scanMatches search_term rest else found

/-- Method 2, outer loop: try each regex pattern in order, stopping at the
first pattern whose matches produced products. -/
def scanPatterns (search_term : String) : List (List (Option Json)) → List ProductRecord
  | [] => []
  | ms :: rest =>
    let found := scanMatches search_term ms
    if found.isEmpty then scanPatterns search_term rest else found

/-- TargetScraper.extract_product_data_from_page: a non-200 response or a
raised exception yields the empty list; otherwise method 1 (script tags)
runs first and method 2 (inline-JavaScript regexes) only when method 1
found nothing. -/
def extract_product_data_from_page (response : FetchResult) (search_term : String) :
    List ProductRecord :=
  match response with
  | FetchResult.exn => []
  | FetchResult.ok status content =>
    if status ≠ 200 then []
    else
      let products := scanScriptTags search_term content.scripts
      if products.isEmpty then scanPatterns search_term content.patternMatches
      else products

/-- TargetScraper.extract_search_term_from_url: pull the searchTerm query
parameter, else a brand segment after /b/, else treat a non-http input as
the term itself. -/
def extract_search_term_from_url (url : String) : Option String :=
  if strContains url "searchTerm=" then
    reSearchLitThenPlus "searchTerm=" (fun c => c != '&') url
  else if strContains url "/b/" then
    reSearchLitThenPlus "/b/" (fun c => c != '/' && c != '-') url
  else if "http".data.isPrefixOf url.data then none
  else some url

/-- The search-page URL fetched for a page index: target.com search with
offset 24 per page. -/
def page_url (search_term : String) (page : Nat) : String :=
  "https://www.target.com/s?searchTerm=" ++ pyQuote search_term ++ "&offset=" ++
    toString (page * 24)

/-- The pagination loop of get_all_products_impl, instrumented with the
list of URLs fetched: an empty page ends pagination, a short page (fewer
than 24 products) is taken as the last one, and page extraction never
raises.  The loop for page in range(max_pages) is run on the number of
pages left, with the page index carried along.  Returns the accumulated
records and the fetch trace. -/
def scrape_pages (fetch : String → FetchResult) (search_term : String) :
    Nat → Nat → List ProductRecord → List String → List ProductRecord × List String
  | 0, _page, acc, urls => (acc, urls)
  | pagesLeft + 1, page, acc, urls =>
    let url := page_url search_term page
    let ps := extract_product_data_from_page (fetch url) search_term
    if ps.isEmpty then (acc, urls ++ [url])
    else if ps.length < 24 then (acc ++ ps, urls ++ [url])
    else scrape_pages fetch search_term pagesLeft (page + 1) (acc ++ ps) (urls ++ [url])

/-- get_all_products_impl with its fetch trace: a missing or empty search
term aborts with no products, otherwise the pagination loop runs from an
empty accumulator. -/
def get_all_products_run (fetch : String → FetchResult) (search_url : String)
    (maxPages : Nat) : List ProductRecord × List String :=
  match extract_search_term_from_url search_url with
  | none => ([], [])
  | some t => if t == "" then ([], []) else scrape_pages fetch t maxPages 0 [] []

/-- TargetScraper.get_all_products_impl (the products it returns). -/
def get_all_products_impl (fetch : String → FetchResult) (search_url : String)
    (maxPages : Nat) : List ProductRecord :=
  (get_all_products_run fetch search_url maxPages).1

/-- The URLs get_all_products_impl fetched, in order. -/
def get_all_products_trace (fetch : String → FetchResult) (search_url : String)
    (maxPages : Nat) : List String :=
  (get_all_products_run fetch search_url maxPages).2

/-- The mutable state a TargetScraper instance carries: self.products, set
to the empty list in the constructor and never read. -/
structure State where
  products : List ProductRecord

/-- TargetScraper.get_all_products, as monkey-patched at module level onto
get_all_products_impl; the instance state is never consulted. -/
def get_all_products (self : State) (fetch : String → FetchResult) (search_url : String)
    (maxPages : Nat) : List ProductRecord :=
  get_all_products_impl fetch search_url maxPages

end TargetScraper

/-- Digits to a natural number. -/
def digitsToNat (ds : List Char) : Nat := ds.foldl (fun acc c => 10 * acc + (c.toNat - 48)) 0

/-- Decimal-literal parsing as used by pandas.to_numeric on a string cell:
an optional sign, digits, an optional fractional part (approximation of
the pandas parser, sufficient for the numerals this program produces). -/
def parseDecimal (s : String) : Option Rat :=
  let cs := s.data
  let sign : Rat := match cs with
    | '-' :: _ => -1
    | _ => 1
  let cs2 := match cs with
    | '-' :: rest => rest
    | '+' :: rest => rest
    | rest => rest
  let ip := cs2.takeWhile Char.isDigit
  match cs2.drop ip.length with
  | [] => if ip.isEmpty then none else some (sign * (digitsToNat ip : Rat))
  | '.' :: frac =>
    if frac.all Char.isDigit && !(ip.isEmpty && frac.isEmpty) then
      some (sign * ((digitsToNat ip : Rat) + (digitsToNat frac : Rat) / (10 : Rat) ^ frac.length))
    else none
  | _ => none

/-- pandas.to_numeric with errors="coerce" on one cell: numbers and bools
coerce, parseable strings parse, everything else becomes NaN (None). -/
def pdToNumeric : Json → Option Rat
  | Json.bool b => some (if b then 1 else 0)
  | Json.int i => some (i : Rat)
  | Json.float q => some q
  | Json.str s => parseDecimal s
  | _ => none

/-- The row filter df[df[col] != "N/A"]: a missing cell is NaN, which
compares unequal to the string, as does any non-string value. -/
def cellNotNA (r : ProductRecord) (col : String) : Bool :=
  match lookupKV r col with
  | some (Json.str s) => s != "N/A"
  | some _ => true
  | none => true

/-- The value of a column cell fed to to_numeric; a missing cell is NaN. -/
def cellNumeric (r : ProductRecord) (col : String) : Option Rat :=
  match lookupKV r col with
  | some v => pdToNumeric v
  | none => none

/-- pandas Series.mean with default skipna: NaN entries are skipped, and
an empty or all-NaN series has a NaN mean. -/
def pdMean (xs : List (Option Rat)) : Option Rat :=
  let vs := xs.filterMap id
  if vs.isEmpty then none else some (vs.foldl (fun a b => a + b) 0 / (vs.length : Rat))

/-- pandas Series.sum with default skipna: NaN entries are skipped and an
empty or all-NaN series sums to 0.0 (never NaN). -/
def pdSum (xs : List (Option Rat)) : Rat := (xs.filterMap id).foldl (fun a b => a + b) 0

/-- Group a reversed digit list into threes (for comma formatting). -/
def chunk3 : List Char → List (List Char)
  | a :: b :: c :: rest => [a, b, c] :: chunk3 rest
  | [] => []
  | xs => [xs]

/-- Python f-string formatting with a comma grouping spec of an int. -/
def commaGroup (i : Int) : String :=
  (if i < 0 then "-" else "") ++
    String.intercalate ","
      (((chunk3 (toString i.natAbs).data.reverse).map (fun l => String.mk l.reverse)).reverse)

/-- A UI or storage effect of the program.  fileWrite is the
persistent-storage effect of the effect language; the program never emits
it — exports live in an in-memory buffer handed to downloadButton. -/
inductive Effect where
  | subheader (title : String) : Effect
  | message (text : String) : Effect
  | dataframeView (rows : List ProductRecord) : Effect
  | metric (label value : String) : Effect
  | downloadButton (label fileName mime : String)
      (payload : List (String × List ProductRecord)) : Effect
  | fileWrite (path : String) (payload : List (String × List ProductRecord)) : Effect

/-- Whether an effect writes persistent storage. -/
def Effect.isFileWrite : Effect → Bool
  | Effect.fileWrite _ _ => true
  | _ => false

/-- The export operation an effect offers, as (file name, MIME type). -/
def Effect.exportOf : Effect → Option (String × String)
  | Effect.downloadButton _ fileName mime _ => some (fileName, mime)
  | _ => none

/-- The in-memory workbook an effect hands to the download control. -/
def Effect.payloadOf : Effect → Option (List (String × List ProductRecord))
  | Effect.downloadButton _ _ _ payload => some payload
  | _ => none

/-- The MIME type of the Excel download offered by the program. -/
def xlsxMime : String := "application/vnd.openxmlformats-officedocument.spreadsheetml.sheet"

/-- The Avg Rating metric string of display_results. -/
def avgRatingMetric (df : List ProductRecord) : String :=
  let valid := df.filter (fun r => cellNotNA r "Rating")
  if valid.length > 0 then
    match pdMean (valid.map (fun r => cellNumeric r "Rating")) with
    | some avg => formatFixed avg 1
    | none => "N/A"
  else "N/A"

/-- The Total Reviews metric string of display_results.  (The pd.isna
branch of the source cannot fire: a pandas sum with skipna is never NaN.) -/
def totalReviewsMetric (df : List ProductRecord) : String :=
  let valid := df.filter (fun r => cellNotNA r "Review_Count")
  if valid.length > 0 then
    commaGroup (ratTrunc (pdSum (valid.map (fun r => cellNumeric r "Review_Count"))))
  else "N/A"

/-- The Summary sheet built by display_results. -/
def summary_df (df : List ProductRecord) : List ProductRecord :=
  [[("Metric", Json.str "Total Products"), ("Count", Json.int (df.length : Int))],
   [("Metric", Json.str "Products with Ratings"),
    ("Count", Json.int ((df.filter (fun r => cellNotNA r "Rating")).length : Int))],
   [("Metric", Json.str "Products with Reviews"),
    ("Count", Json.int ((df.filter (fun r => cellNotNA r "Review_Count")).length : Int))],
   [("Metric", Json.str "Products with Prices"),
    ("Count", Json.int ((df.filter (fun r => cellNotNA r "Price")).length : Int))]]

/-- The Excel workbook display_results builds in an in-memory buffer:
the product sheet and the summary sheet. -/
def excelWorkbook (df : List ProductRecord) : List (String × List ProductRecord) :=
  [("Product Data", df), ("Summary", summary_df df)]

/-- display_results: the effect trace of showing the table, the four
metrics, and offering the single Excel download of the in-memory
workbook.  The timestamp embedded in the file name is datetime.now(),
passed in as a parameter (real time is not modelled). -/
def display_results (timestamp : String) (df : List ProductRecord) : List Effect :=
  [Effect.subheader "📊 Data Preview",
   Effect.dataframeView df,
   Effect.metric "Total Products" (toString df.length),
   Effect.metric "Avg Rating" (avgRatingMetric df),
   Effect.metric "Total Reviews" (totalReviewsMetric df),
   Effect.metric "Products with Price"
     (toString (df.filter (fun r => cellNotNA r "Price")).length),
   Effect.downloadButton "📥 Download Excel File"
     ("target_products_" ++ timestamp ++ ".xlsx") xlsxMime (excelWorkbook df)]

/-- The result-and-export tail of manual_product_input: when any product
was scraped, show the table and offer the single-sheet Excel download
built in an in-memory buffer. -/
def manual_export_effects (timestamp : String) (products_data : List ProductRecord) :
    List Effect :=
  if products_data.isEmpty then []
  else
    [Effect.message ("Successfully scraped " ++ toString products_data.length ++ " products!"),
     Effect.dataframeView products_data,
     Effect.downloadButton "📥 Download Excel File"
       ("target_manual_scrape_" ++ timestamp ++ ".xlsx") xlsxMime
       [("Product Data", products_data)]]

namespace AlternativeTargetScraper

/-- The data scrape_individual_product consumes from a fetched product
page: the decoded application/ld+json script tags, and the stripped text
of the first element matching each CSS selector (absent when the selector
matches nothing). -/
structure HtmlDoc where
  ldScripts : List JScript
  selectorText : List (String × String)

/-- Result of session.get on a product URL. -/
inductive PageResult where
  | exn : PageResult
  | ok (status : Nat) (doc : HtmlDoc) : PageResult

/-- soup.select_one(sel) followed by get_text(strip=True). -/
def selectOne (doc : HtmlDoc) (sel : String) : Option String :=
  match doc.selectorText.find? (fun p => p.1 == sel) with
  | some p => some p.2
  | none => none

/-- JSON-LD Product branch, first two statements: Title from name (any
JSON value, defaulting to the string N/A), then Price from offers when
offers is a dict carrying a price. -/
def ldTitlePrice (d0 : ProductRecord) (kvs : List (String × Json)) : ProductRecord :=
  let d1 := pySet d0 "Title" ((lookupKV kvs "name").getD (Json.str "N/A"))
  match (lookupKV kvs "offers").getD (Json.obj []) with
  | Json.obj okvs =>
    match lookupKV okvs "price" with
    | some pv => pySet d1 "Price" (Json.str ("$" ++ pyStr pv))
    | none => d1
  | _ => d1

/-- JSON-LD Product branch, rating statement: a truthy dict
aggregateRating sets Rating and Review_Count; a truthy non-dict makes
rating_data.get raise AttributeError, which only the outermost handler
catches, aborting the whole scrape (None). -/
def ldRating (d : ProductRecord) (kvs : List (String × Json)) : Option ProductRecord :=
  let rd := (lookupKV kvs "aggregateRating").getD (Json.obj [])
  if pyTruthy rd then
    match rd with
    | Json.obj rkvs =>
      some (pySet
        (pySet d "Rating" (Json.str (pyStr ((lookupKV rkvs "ratingValue").getD (Json.str "N/A")))))
        "Review_Count" (Json.str (pyStr ((lookupKV rkvs "reviewCount").getD (Json.str "N/A")))))
    | _ => none
  else some d

/-- JSON-LD Product branch, image statement: a nonempty list stores its
first element as-is, a string stores itself. -/
def ldImage (d : ProductRecord) (kvs : List (String × Json)) : ProductRecord :=
  match lookupKV kvs "image" with
  | some (Json.arr (x :: _)) => pySet d "Image_URL" x
  | some (Json.str s) => pySet d "Image_URL" (Json.str s)
  | _ => d

/-- The body of the JSON-LD Product branch: set Title from name, Price
from offers, Rating and Review_Count from aggregateRating, Image_URL from
image, in statement order. -/
def applyProductLd (d0 : ProductRecord) (kvs : List (String × Json)) : Option ProductRecord :=
  match ldRating (ldTitlePrice d0 kvs) kvs with
  | none => none
  | some d3 => some (ldImage d3 kvs)

/-- The JSON-LD script loop: a script with no text makes json.loads raise
TypeError (uncaught here, so the scrape returns None), an undecodable one
is skipped, and the first dict with @type Product is applied, ending the
loop. -/
def scanLd (d : ProductRecord) : List JScript → Option ProductRecord
  | [] => some d
  | JScript.noString :: _ => none
  | JScript.invalid :: rest => scanLd d rest
  | JScript.valid j :: rest =>
    match j with
    | Json.obj kvs =>
      if (match lookupKV kvs "@type" with
          | some (Json.str s) => s == "Product"
          | _ => false) then
        applyProductLd d kvs
      else scanLd d rest
    | _ => scanLd d rest

/-- The title selector cascade of the HTML fallback. -/
def titleSelectors : List String :=
  ["h1[data-test=\"product-title\"]", "h1", "[data-test=\"product-title\"]", ".ProductTitle"]

/-- First selector with a match. -/
def firstSelectorTitle (doc : HtmlDoc) : List String → Option String
  | [] => none
  | sel :: rest =>
    match selectOne doc sel with
    | some t => some t
    | none => firstSelectorTitle doc rest

/-- The HTML-parsing fallback for the title: runs when Title is missing or
the string N/A; a matching selector overwrites it, otherwise a still
missing Title is set to N/A. -/
def titleFallback (doc : HtmlDoc) (d : ProductRecord) : ProductRecord :=
  if (match lookupKV d "Title" with
      | none => true
      | some (Json.str s) => s == "N/A"
      | some _ => false) then
    match firstSelectorTitle doc titleSelectors with
    | some t => pySet d "Title" (Json.str t)
    | none =>
      match lookupKV d "Title" with
      | none => pySet d "Title" (Json.str "N/A")
      | some _ => d
  else d

/-- The defaults loop: every still missing field is set to N/A. -/
def setDefaults (d : ProductRecord) : List String → ProductRecord
  | [] => d
  | f :: rest =>
    match lookupKV d f with
    | some _ => setDefaults d rest
    | none => setDefaults (pySet d f (Json.str "N/A")) rest

/-- The regex group of re.search(r"/A-(\d+)", product_url), N/A when the
pattern does not match. -/
def urlTcin (product_url : String) : String :=
  match reSearchLitThenPlus "/A-" Char.isDigit product_url with
  | some g => g
  | none => "N/A"

/-- The first two fields of the record: the TCIN extracted from the URL
by the regex, and the product URL itself. -/
def initialRecord (product_url : String) : ProductRecord :=
  pySet (pySet [] "TCIN" (Json.str (urlTcin product_url))) "URL" (Json.str product_url)

/-- AlternativeTargetScraper.scrape_individual_product: a failed fetch or
non-200 status yields None; otherwise the record is built from the TCIN in
the URL, the JSON-LD data, the title selector fallback, and the N/A
defaults.  (TargetScraper.scrape_individual_product is monkey-patched to
delegate here.) -/
def scrape_individual_product (fetch : String → PageResult) (product_url : String) :
    Option ProductRecord :=
  match fetch product_url with
  | PageResult.exn => none
  | PageResult.ok status doc =>
    if status ≠ 200 then none
    else
      match scanLd (initialRecord product_url) doc.ldScripts with
      | none => none
      | some d1 =>
        some (setDefaults (titleFallback doc d1) ["Price", "Rating", "Review_Count", "Image_URL"])

end AlternativeTargetScraper

/-! Verification of the specification claims. -/

/-- Claim C5: failure recovery is best-effort and non-raising — for every
fetched page, a non-200 status or a raised exception makes
extract_product_data_from_page return the empty list instead of
propagating the error. -/
theorem claim_C5 (search_term : String) :
    (∀ (status : Nat) (content : PageContent), status ≠ 200 →
      TargetScraper.extract_product_data_from_page (FetchResult.ok status content)
        search_term = []) ∧
    TargetScraper.extract_product_data_from_page FetchResult.exn search_term = [] := by
  constructor
  · intro status content h
    simp [TargetScraper.extract_product_data_from_page, h]
  · rfl

/-- Concrete instance of claim C5 at an HTTP 404 response and a raised
exception. -/
theorem claim_C5_witness :
    TargetScraper.extract_product_data_from_page
      (FetchResult.ok 404 ⟨[], []⟩) "yoobi" = [] ∧
    TargetScraper.extract_product_data_from_page FetchResult.exn "yoobi" = [] :=
  ⟨(claim_C5 "yoobi").1 404 ⟨[], []⟩ (by decide), (claim_C5 "yoobi").2⟩

/-- Claim C4: page extraction tries its strategies in a fixed fallback
order — the JSON-script-tag strategy first, the inline-JavaScript regex
strategy if and only if the first produced no products; when the first
strategy produces at least one product, the result does not depend on the
regex matches at all. -/
theorem claim_C4 (search_term : String) (scripts : List JScript)
    (pm pm2 : List (List (Option Json))) :
    (TargetScraper.scanScriptTags search_term scripts ≠ [] →
      TargetScraper.extract_product_data_from_page
          (FetchResult.ok 200 ⟨scripts, pm⟩) search_term =
        TargetScraper.scanScriptTags search_term scripts ∧
      TargetScraper.extract_product_data_from_page
          (FetchResult.ok 200 ⟨scripts, pm⟩) search_term =
        TargetScraper.extract_product_data_from_page
          (FetchResult.ok 200 ⟨scripts, pm2⟩) search_term) ∧
    (TargetScraper.scanScriptTags search_term scripts = [] →
      TargetScraper.extract_product_data_from_page
          (FetchResult.ok 200 ⟨scripts, pm⟩) search_term =
        TargetScraper.scanPatterns search_term pm) := by
  constructor
  · intro h
    have he : (TargetScraper.scanScriptTags search_term scripts).isEmpty = false := by
      cases hs : TargetScraper.scanScriptTags search_term scripts with
      | nil => exact absurd hs h
      | cons a l => rfl
    constructor <;> simp [TargetScraper.extract_product_data_from_page, he]
  · intro h
    simp [TargetScraper.extract_product_data_from_page, h]

/-- A product item used to exercise the claims on concrete inputs. -/
def w4Item : Json := Json.obj [("tcin", Json.str "77"), ("title", Json.str "Yoobi Notebook")]

/-- A script-tag list whose first strategy succeeds. -/
def w4Scripts : List JScript := [JScript.valid (Json.obj [("products", Json.arr [w4Item])])]

/-- Concrete instance of claim C4: with a script tag carrying products,
the result is the script-tag extraction and is unchanged when the regex
matches are replaced. -/
theorem claim_C4_witness :
    TargetScraper.extract_product_data_from_page
        (FetchResult.ok 200 ⟨w4Scripts, [[some (Json.obj [])]]⟩) "yoobi" =
      TargetScraper.scanScriptTags "yoobi" w4Scripts ∧
    TargetScraper.extract_product_data_from_page
        (FetchResult.ok 200 ⟨w4Scripts, [[some (Json.obj [])]]⟩) "yoobi" =
      TargetScraper.extract_product_data_from_page
        (FetchResult.ok 200 ⟨w4Scripts, []⟩) "yoobi" :=
  (claim_C4 "yoobi" w4Scripts [[some (Json.obj [])]] []).1
    (fun hEq => absurd (congrArg List.length hEq) (by decide))

/-- The shape of every record parse_product_json returns: exactly the
seven fields in order, each a string, with the URL derived from a
non-N/A TCIN. -/
theorem parse_product_json_shape (d : Json) (r : ProductRecord)
    (h : TargetScraper.parse_product_json d = some r) :
    ∃ tcin title image price rating review url,
      r = [("TCIN", Json.str tcin), ("Title", Json.str title),
           ("Image_URL", Json.str image), ("Price", Json.str price),
           ("Rating", Json.str rating), ("Review_Count", Json.str review),
           ("URL", Json.str url)] ∧
      (tcin ≠ "N/A" → url = "https://www.target.com/p/-/A-" ++ tcin) := by
  cases d with
  | obj kvs =>
    simp only [TargetScraper.parse_product_json, Option.some.injEq] at h
    refine ⟨_, _, _, _, _, _, _, h.symm, ?_⟩
    intro hT
    exact if_pos hT
  | null => simp [TargetScraper.parse_product_json] at h
  | bool b => simp [TargetScraper.parse_product_json] at h
  | int i => simp [TargetScraper.parse_product_json] at h
  | float q => simp [TargetScraper.parse_product_json] at h
  | str s => simp [TargetScraper.parse_product_json] at h
  | arr items => simp [TargetScraper.parse_product_json] at h

/-- Claim C8: parse_product_json either returns None or a record with
exactly the keys TCIN, Title, Image_URL, Price, Rating, Review_Count,
URL, each bound to a string; absent data yields the string N/A (shown at
the empty dict), and a non-N/A TCIN determines the URL field. -/
theorem claim_C8 :
    (∀ (d : Json) (r : ProductRecord), TargetScraper.parse_product_json d = some r →
      ∃ tcin title image price rating review url,
        r = [("TCIN", Json.str tcin), ("Title", Json.str title),
             ("Image_URL", Json.str image), ("Price", Json.str price),
             ("Rating", Json.str rating), ("Review_Count", Json.str review),
             ("URL", Json.str url)] ∧
        (tcin ≠ "N/A" → url = "https://www.target.com/p/-/A-" ++ tcin)) ∧
    TargetScraper.parse_product_json (Json.obj []) =
      some [("TCIN", Json.str "N/A"), ("Title", Json.str "N/A"),
            ("Image_URL", Json.str "N/A"), ("Price", Json.str "N/A"),
            ("Rating", Json.str "N/A"), ("Review_Count", Json.str "N/A"),
            ("URL", Json.str "N/A")] :=
  ⟨parse_product_json_shape, rfl⟩

/-- Concrete instance of claim C8 at a dict carrying only a tcin. -/
theorem claim_C8_witness :
    ∃ tcin title image price rating review url,
      ([("TCIN", Json.str "9"), ("Title", Json.str "N/A"), ("Image_URL", Json.str "N/A"),
        ("Price", Json.str "N/A"), ("Rating", Json.str "N/A"),
        ("Review_Count", Json.str "N/A"),
        ("URL", Json.str "https://www.target.com/p/-/A-9")] : ProductRecord) =
        [("TCIN", Json.str tcin), ("Title", Json.str title), ("Image_URL", Json.str image),
         ("Price", Json.str price), ("Rating", Json.str rating),
         ("Review_Count", Json.str review), ("URL", Json.str url)] ∧
      (tcin ≠ "N/A" → url = "https://www.target.com/p/-/A-" ++ tcin) :=
  claim_C8.1 (Json.obj [("tcin", Json.str "9")]) _ rfl

/-- A record kept by productOfItem passed the relevance check. -/
theorem productOfItem_relevant {search_term : String} {item : Json} {p : ProductRecord}
    (h : TargetScraper.productOfItem search_term item = some p) :
    TargetScraper.is_relevant_product p search_term = true := by
  unfold TargetScraper.productOfItem at h
  split at h
  · rcases hp : TargetScraper.parse_product_json item with _ | pi
    · rw [hp] at h
      exact absurd h (by simp)
    · simp only [hp] at h
      split at h
      · rename_i hc
        cases h
        simp only [Bool.and_eq_true] at hc
        exact hc.2
      · exact absurd h (by simp)
  · exact absurd h (by simp)

/-- Every record produced by the find_products_recursive walk passed the
relevance check. -/
theorem rel_of_mem_find (search_term : String) (d : Json) :
    ∀ p ∈ TargetScraper.find_products_recursive search_term d,
      TargetScraper.is_relevant_product p search_term = true := by
  refine TargetScraper.find_products_recursive.induct search_term
    (fun j => ∀ p ∈ TargetScraper.find_products_recursive search_term j,
      TargetScraper.is_relevant_product p search_term = true)
    (fun xs => ∀ p ∈ TargetScraper.findInItems search_term xs,
      TargetScraper.is_relevant_product p search_term = true)
    (fun kvs => ∀ p ∈ TargetScraper.findInEntries search_term kvs,
      TargetScraper.is_relevant_product p search_term = true)
    ?_ ?_ ?_ ?_ ?_ ?_ ?_ d
  · intro kvs ih p hp
    simp only [TargetScraper.find_products_recursive] at hp
    exact ih p hp
  · intro xs ih p hp
    simp only [TargetScraper.find_products_recursive] at hp
    exact ih p hp
  · intro t hobj harr p hp
    cases t with
    | obj kvs => exact absurd rfl (hobj kvs)
    | arr xs => exact absurd rfl (harr xs)
    | null => simp [TargetScraper.find_products_recursive] at hp
    | bool b => simp [TargetScraper.find_products_recursive] at hp
    | int i => simp [TargetScraper.find_products_recursive] at hp
    | float q => simp [TargetScraper.find_products_recursive] at hp
    | str s => simp [TargetScraper.find_products_recursive] at hp
  · intro p hp
    simp [TargetScraper.findInItems] at hp
  · intro j rest ihj ihrest p hp
    simp only [TargetScraper.findInItems] at hp
    rcases List.mem_append.mp hp with h | h
    · exact ihj p h
    · exact ihrest p h
  · intro p hp
    simp [TargetScraper.findInEntries] at hp
  · intro k v rest ihv ihrest p hp
    simp only [TargetScraper.findInEntries] at hp
    rcases List.mem_append.mp hp with h | h
    · by_cases hk : TargetScraper.isProductKey k = true
      · rw [if_pos hk] at h
        rcases hv : TargetScraper.jArrItems v with _ | items
        · simp only [hv] at h
          exact ihv p h
        · simp only [hv] at h
          rcases List.mem_filterMap.mp h with ⟨a, _, ha⟩
          exact productOfItem_relevant ha
      · rw [if_neg hk] at h
        exact ihv p h
    · exact ihrest p h

/-- With the empty search term the relevance filter accepts everything, so
productOfItem coincides with the unfiltered comparison definition. -/
theorem productOfItem_empty (item : Json) :
    TargetScraper.productOfItem "" item = TargetScraper.productOfItemUnfiltered item := by
  unfold TargetScraper.productOfItem TargetScraper.productOfItemUnfiltered
  rcases hp : TargetScraper.parse_product_json item with _ | pi
  · simp [hp]
  · have hb : (!List.isEmpty pi && TargetScraper.is_relevant_product pi "") = !List.isEmpty pi := by
      simp [TargetScraper.is_relevant_product]
    simp only [hp]
    by_cases hl : TargetScraper.looks_like_product item = true
    · rw [if_pos hl, if_pos hl, hb]
    · rw [if_neg hl, if_neg hl]

/-- With the empty search term the whole walk coincides with the
unfiltered comparison definition. -/
theorem find_empty_term_unfiltered (d : Json) :
    TargetScraper.find_products_recursive "" d = TargetScraper.find_products_unfiltered d := by
  have hfun : TargetScraper.productOfItem "" = TargetScraper.productOfItemUnfiltered :=
    funext productOfItem_empty
  refine TargetScraper.find_products_recursive.induct ""
    (fun j => TargetScraper.find_products_recursive "" j =
      TargetScraper.find_products_unfiltered j)
    (fun xs => TargetScraper.findInItems "" xs = TargetScraper.findInItemsUnfiltered xs)
    (fun kvs => TargetScraper.findInEntries "" kvs =
      TargetScraper.findInEntriesUnfiltered kvs)
    ?_ ?_ ?_ ?_ ?_ ?_ ?_ d
  · intro kvs ih
    simpa only [TargetScraper.find_products_recursive,
      TargetScraper.find_products_unfiltered] using ih
  · intro xs ih
    simpa only [TargetScraper.find_products_recursive,
      TargetScraper.find_products_unfiltered] using ih
  · intro t hobj harr
    cases t with
    | obj kvs => exact absurd rfl (hobj kvs)
    | arr xs => exact absurd rfl (harr xs)
    | null => rfl
    | bool b => rfl
    | int i => rfl
    | float q => rfl
    | str s => rfl
  · rfl
  · intro j rest ihj ihrest
    simp only [TargetScraper.findInItems, TargetScraper.findInItemsUnfiltered]
    rw [ihj, ihrest]
  · rfl
  · intro k v rest ihv ihrest
    simp only [TargetScraper.findInEntries, TargetScraper.findInEntriesUnfiltered]
    rw [ihrest]
    congr 1
    by_cases hk : TargetScraper.isProductKey k = true
    · rw [if_pos hk, if_pos hk]
      rcases hv : TargetScraper.jArrItems v with _ | items
      · simpa only [hv] using ihv
      · simp only [hv, hfun]
    · rw [if_neg hk, if_neg hk]
      exact ihv

/-- Claim C9: with a non-empty search term, every record returned by
extract_products_from_json has the lowercased term as a substring of its
lowercased Title; with the empty term, nothing is filtered out on
relevance — the result equals the unfiltered walk. -/
theorem claim_C9 :
    (∀ (data : Json) (search_term : String) (p : ProductRecord), search_term ≠ "" →
      p ∈ TargetScraper.extract_products_from_json data search_term →
      strContains (pyLower (TargetScraper.recordTitle p)) (pyLower search_term) = true) ∧
    (∀ data : Json, TargetScraper.extract_products_from_json data "" =
      TargetScraper.find_products_unfiltered data) := by
  constructor
  · intro data search_term p hne hp
    have hrel := rel_of_mem_find search_term data p hp
    unfold TargetScraper.is_relevant_product at hrel
    rwa [if_neg (by simpa using hne)] at hrel
  · intro data
    exact find_empty_term_unfiltered data

/-- Concrete instance of claim C9 at a one-product structure and the term
yoobi. -/
theorem claim_C9_witness :
    strContains (pyLower (TargetScraper.recordTitle
      [("TCIN", Json.str "77"), ("Title", Json.str "Yoobi Notebook"),
       ("Image_URL", Json.str "N/A"), ("Price", Json.str "N/A"),
       ("Rating", Json.str "N/A"), ("Review_Count", Json.str "N/A"),
       ("URL", Json.str "https://www.target.com/p/-/A-77")]))
      (pyLower "yoobi") = true :=
  claim_C9.1 (Json.obj [("products", Json.arr [w4Item])]) "yoobi"
    [("TCIN", Json.str "77"), ("Title", Json.str "Yoobi Notebook"),
     ("Image_URL", Json.str "N/A"), ("Price", Json.str "N/A"),
     ("Rating", Json.str "N/A"), ("Review_Count", Json.str "N/A"),
     ("URL", Json.str "https://www.target.com/p/-/A-77")]
    (by decide) (by exact List.mem_singleton_self _)

/-- What the pagination loop computes: for some number k of pages actually
visited (at most the pages left), the records are the accumulator followed
by the concatenated per-page extractions, and the trace is the urls
accumulator followed by the consecutive search-page URLs. -/
theorem scrape_pages_spec (fetch : String → FetchResult) (search_term : String) :
    ∀ (pagesLeft page : Nat) (acc : List ProductRecord) (urls : List String),
      ∃ k, k ≤ pagesLeft ∧
        TargetScraper.scrape_pages fetch search_term pagesLeft page acc urls =
          (acc ++ (List.range k).flatMap (fun i =>
              TargetScraper.extract_product_data_from_page
                (fetch (TargetScraper.page_url search_term (page + i))) search_term),
           urls ++ (List.range k).map
             (fun i => TargetScraper.page_url search_term (page + i))) := by
  intro pagesLeft
  induction pagesLeft with
  | zero =>
    intro page acc urls
    exact ⟨0, Nat.le_refl 0, by simp [TargetScraper.scrape_pages]⟩
  | succ n ih =>
    intro page acc urls
    have hr1 : List.range 1 = [0] := rfl
    by_cases h1 : (TargetScraper.extract_product_data_from_page
        (fetch (TargetScraper.page_url search_term page)) search_term).isEmpty = true
    · refine ⟨1, by omega, ?_⟩
      have h0 := List.isEmpty_iff.mp h1
      simp [TargetScraper.scrape_pages, h1, h0, hr1]
    · by_cases h2 : (TargetScraper.extract_product_data_from_page
          (fetch (TargetScraper.page_url search_term page)) search_term).length < 24
      · refine ⟨1, by omega, ?_⟩
        simp [TargetScraper.scrape_pages, h1, h2, hr1]
      · rcases ih (page + 1)
          (acc ++ TargetScraper.extract_product_data_from_page
            (fetch (TargetScraper.page_url search_term page)) search_term)
          (urls ++ [TargetScraper.page_url search_term page]) with ⟨k, hk, heq⟩
        refine ⟨k + 1, by omega, ?_⟩
        have hstep : TargetScraper.scrape_pages fetch search_term (n + 1) page acc urls =
            TargetScraper.scrape_pages fetch search_term n (page + 1)
              (acc ++ TargetScraper.extract_product_data_from_page
                (fetch (TargetScraper.page_url search_term page)) search_term)
              (urls ++ [TargetScraper.page_url search_term page]) := by
          simp [TargetScraper.scrape_pages, h1, h2]
        rw [hstep, heq]
        simp only [Prod.mk.injEq]
        constructor
        · rw [List.range_succ_eq_map, List.flatMap_cons, List.flatMap_map]
          simp [Nat.succ_eq_add_one, Nat.add_assoc, Nat.add_comm, Nat.add_left_comm,
            List.append_assoc]
        · rw [List.range_succ_eq_map, List.map_cons, List.map_map]
          simp [Nat.succ_eq_add_one, Nat.add_assoc, Nat.add_comm, Nat.add_left_comm,
            List.append_assoc, Function.comp]

/-- Claim C6: with a search term recognised in the input, every URL the
pagination loop fetches is a target.com search-page URL of the fixed form,
with offset 24 per page for consecutive pages 0, 1, ..., k-1 for some k at
most the page limit. -/
theorem claim_C6 (fetch : String → FetchResult) (search_url : String) (maxPages : Nat)
    (search_term : String)
    (h1 : TargetScraper.extract_search_term_from_url search_url = some search_term)
    (h2 : search_term ≠ "") :
    (∃ k, k ≤ maxPages ∧
      TargetScraper.get_all_products_trace fetch search_url maxPages =
        (List.range k).map (fun page => TargetScraper.page_url search_term page)) ∧
    ∀ page : Nat, TargetScraper.page_url search_term page =
      "https://www.target.com/s?searchTerm=" ++ pyQuote search_term ++ "&offset=" ++
        toString (page * 24) := by
  constructor
  · rcases scrape_pages_spec fetch search_term maxPages 0 [] [] with ⟨k, hk, heq⟩
    refine ⟨k, hk, ?_⟩
    have hne : (search_term == "") = false := by simpa using h2
    unfold TargetScraper.get_all_products_trace TargetScraper.get_all_products_run
    rw [h1]
    simp only [hne, Bool.false_eq_true, if_false, heq]
    simp [Nat.zero_add]
  · intro page
    rfl

/-- A product item with TCIN 123 occurring twice on a fetched page. -/
def c1Item : Json := Json.obj [("tcin", Json.str "123"), ("title", Json.str "Yoobi Pencil Case")]

/-- A fetch whose result page carries the same product twice. -/
def c1Fetch : String → FetchResult := fun _ =>
  FetchResult.ok 200 ⟨[JScript.valid (Json.obj [("products", Json.arr [c1Item, c1Item])])], []⟩

/-- Counterexample to claim C1: on a page listing the same TCIN twice, the
pipeline returns two records with the same product ID — no deduplication
by TCIN happens before the results are handed on. -/
theorem claim_C1_counterexample :
    (TargetScraper.get_all_products_impl c1Fetch "yoobi" 5).map TargetScraper.recordTCIN =
      ["123", "123"] ∧
    ¬ ((TargetScraper.get_all_products_impl c1Fetch "yoobi" 5).map
        TargetScraper.recordTCIN).Nodup := by
  constructor
  · rfl
  · intro hnd
    rw [show (TargetScraper.get_all_products_impl c1Fetch "yoobi" 5).map
        TargetScraper.recordTCIN = ["123", "123"] from rfl] at hnd
    simp at hnd

/-- Claim C1 as amended: the records returned by the automated pipeline
are exactly the concatenation of the per-page extraction results in fetch
order, with no deduplication applied, so records with equal TCINs are all
kept. -/
theorem claim_C1_amended (fetch : String → FetchResult) (search_url : String) (maxPages : Nat)
    (search_term : String)
    (h1 : TargetScraper.extract_search_term_from_url search_url = some search_term)
    (h2 : search_term ≠ "") :
    ∃ k, k ≤ maxPages ∧
      TargetScraper.get_all_products_impl fetch search_url maxPages =
        (List.range k).flatMap (fun page =>
          TargetScraper.extract_product_data_from_page
            (fetch (TargetScraper.page_url search_term page)) search_term) := by
  rcases scrape_pages_spec fetch search_term maxPages 0 [] [] with ⟨k, hk, heq⟩
  refine ⟨k, hk, ?_⟩
  have hne : (search_term == "") = false := by simpa using h2
  unfold TargetScraper.get_all_products_impl TargetScraper.get_all_products_run
  rw [h1]
  simp only [hne, Bool.false_eq_true, if_false, heq]
  simp [Nat.zero_add]

/-- Concrete instance of the amended claim C1 at the duplicate-TCIN fetch. -/
theorem claim_C1_amended_witness :
    ∃ k, k ≤ 5 ∧
      TargetScraper.get_all_products_impl c1Fetch "yoobi" 5 =
        (List.range k).flatMap (fun page =>
          TargetScraper.extract_product_data_from_page
            (c1Fetch (TargetScraper.page_url "yoobi" page)) "yoobi") :=
  claim_C1_amended c1Fetch "yoobi" 5 "yoobi" rfl (by decide)

/-- Concrete instance of claim C6 at the term yoobi. -/
theorem claim_C6_witness :
    (∃ k, k ≤ 3 ∧
      TargetScraper.get_all_products_trace c1Fetch "yoobi" 3 =
        (List.range k).map (fun page => TargetScraper.page_url "yoobi" page)) ∧
    ∀ page : Nat, TargetScraper.page_url "yoobi" page =
      "https://www.target.com/s?searchTerm=" ++ pyQuote "yoobi" ++ "&offset=" ++
        toString (page * 24) :=
  claim_C6 c1Fetch "yoobi" 3 "yoobi" rfl (by decide)

/-- A one-row result set used to exercise the display layer. -/
def c3df : List ProductRecord :=
  [[("TCIN", Json.str "1"), ("Title", Json.str "Item"), ("Image_URL", Json.str "N/A"),
    ("Price", Json.str "N/A"), ("Rating", Json.str "N/A"), ("Review_Count", Json.str "N/A"),
    ("URL", Json.str "N/A")]]

/-- Counterexample to claim C3: for a non-empty displayed result set the
export operations offered are exactly one Excel download; no CSV export
operation (text/csv MIME type or .csv file name) is available. -/
theorem claim_C3_counterexample :
    c3df.length = 1 ∧
    (display_results "20250101_000000" c3df).filterMap Effect.exportOf =
      [("target_products_20250101_000000.xlsx", xlsxMime)] ∧
    ((display_results "20250101_000000" c3df).filterMap Effect.exportOf).all
      (fun e => e.2 != "text/csv" && !(strContains e.1 ".csv")) = true := by
  refine ⟨rfl, rfl, ?_⟩
  decide

/-- Claim C3 as amended: the program presents results in a data table and
offers exactly one export of them, an in-memory Excel download; no CSV
export is offered (on either the automated or the manual path). -/
theorem claim_C3_amended :
    (∀ (timestamp : String) (df : List ProductRecord),
      (display_results timestamp df).filterMap Effect.exportOf =
        [("target_products_" ++ timestamp ++ ".xlsx", xlsxMime)]) ∧
    (∀ (timestamp : String) (products_data : List ProductRecord), products_data ≠ [] →
      (manual_export_effects timestamp products_data).filterMap Effect.exportOf =
        [("target_manual_scrape_" ++ timestamp ++ ".xlsx", xlsxMime)]) := by
  constructor
  · intro ts df
    rfl
  · intro ts ps hne
    have h : ps.isEmpty = false := by
      cases ps with
      | nil => exact absurd rfl hne
      | cons a l => rfl
    unfold manual_export_effects
    simp only [h, Bool.false_eq_true, if_false]
    rfl

/-- Concrete instance of the amended claim C3 at a one-row result set. -/
theorem claim_C3_amended_witness :
    (display_results "20250101_000000" c3df).filterMap Effect.exportOf =
      [("target_products_20250101_000000.xlsx", xlsxMime)] ∧
    (manual_export_effects "20250101_000000" c3df).filterMap Effect.exportOf =
      [("target_manual_scrape_20250101_000000.xlsx", xlsxMime)] :=
  ⟨claim_C3_amended.1 "20250101_000000" c3df,
   claim_C3_amended.2 "20250101_000000" c3df (by simp [c3df])⟩

/-- Claim C7: no operation persists results — the display and manual
export traces contain no persistent-storage write, the downloaded payload
is exactly the workbook built in memory from the displayed rows, and a
scraping run is independent of any instance state (self.products is set
to the empty list and never read), so nothing carries over between runs. -/
theorem claim_C7 :
    (∀ (timestamp : String) (df : List ProductRecord),
      ((display_results timestamp df).all (fun e => !(Effect.isFileWrite e))) = true) ∧
    (∀ (timestamp : String) (products_data : List ProductRecord),
      ((manual_export_effects timestamp products_data).all
        (fun e => !(Effect.isFileWrite e))) = true) ∧
    (∀ (timestamp : String) (df : List ProductRecord),
      (display_results timestamp df).filterMap Effect.payloadOf = [excelWorkbook df]) ∧
    (∀ (s1 s2 : TargetScraper.State) (fetch : String → FetchResult) (search_url : String)
        (maxPages : Nat),
      TargetScraper.get_all_products s1 fetch search_url maxPages =
        TargetScraper.get_all_products s2 fetch search_url maxPages) := by
  refine ⟨?_, ?_, ?_, ?_⟩
  · intro ts df
    rfl
  · intro ts ps
    unfold manual_export_effects
    by_cases h : ps.isEmpty = true
    · rw [if_pos h]
      rfl
    · rw [if_neg h]
      rfl
  · intro ts df
    rfl
  · intro s1 s2 fetch search_url maxPages
    rfl

/-- Membership in the keys after a Python dict assignment: the old keys,
plus the assigned key. -/
theorem mem_keysOf_pySet {d : ProductRecord} {k : String} {v : Json} {a : String} :
    a ∈ keysOf (pySet d k v) ↔ a ∈ keysOf d ∨ a = k := by
  unfold pySet keysOf
  by_cases h : d.any (fun kv => kv.1 == k) = true
  · rw [if_pos h]
    have hk : k ∈ d.map (fun kv => kv.1) := by
      rcases List.any_eq_true.mp h with ⟨kv, hmem, hkv⟩
      have he : kv.1 = k := by simpa using hkv
      exact he ▸ List.mem_map_of_mem (fun kv => kv.1) hmem
    have hkeys : ((d.map fun kv => if kv.1 == k then (k, v) else kv).map fun kv => kv.1) =
        d.map (fun kv => kv.1) := by
      rw [List.map_map]
      apply List.map_congr_left
      intro kv _
      by_cases hh : (kv.1 == k) = true
      · simp [hh, eq_of_beq hh]
      · have hne : kv.1 ≠ k := fun he => hh (by simp [he])
        simp [hne]
    rw [hkeys]
    constructor
    · exact Or.inl
    · rintro (ha | rfl)
      · exact ha
      · exact hk
  · rw [if_neg h]
    simp

/-- A successful dict lookup means the key is present. -/
theorem mem_keysOf_of_lookupKV {d : ProductRecord} {k : String} {v : Json}
    (h : lookupKV d k = some v) : k ∈ keysOf d := by
  unfold lookupKV at h
  rcases hf : d.find? (fun kv => kv.1 == k) with _ | kv
  · rw [hf] at h
    cases h
  · have hmem := List.mem_of_find?_eq_some hf
    have hp := List.find?_some hf
    have he : kv.1 = k := by simpa using hp
    exact he ▸ List.mem_map_of_mem (fun kv => kv.1) hmem

/-- A present key means the dict lookup succeeds. -/
theorem lookupKV_of_mem_keysOf {d : ProductRecord} {k : String}
    (h : k ∈ keysOf d) : ∃ v, lookupKV d k = some v := by
  unfold keysOf at h
  rcases List.mem_map.mp h with ⟨kv, hmem, hk⟩
  rcases hf : d.find? (fun kv => kv.1 == k) with _ | x
  · exact absurd (by simp [hk]) (List.find?_eq_none.mp hf kv hmem)
  · exact ⟨x.2, by unfold lookupKV; rw [hf]⟩

/-- Keys after the Title and Price statements. -/
theorem ldTitlePrice_keys (d0 : ProductRecord) (kvs : List (String × Json)) :
    (∀ a ∈ keysOf d0, a ∈ keysOf (AlternativeTargetScraper.ldTitlePrice d0 kvs)) ∧
    (∀ a ∈ keysOf (AlternativeTargetScraper.ldTitlePrice d0 kvs),
      a ∈ keysOf d0 ∨ a = "Title" ∨ a = "Price") ∧
    "Title" ∈ keysOf (AlternativeTargetScraper.ldTitlePrice d0 kvs) := by
  unfold AlternativeTargetScraper.ldTitlePrice
  repeat split
  all_goals refine ⟨fun a ha => ?_, fun a ha => ?_, ?_⟩ <;>
    simp only [mem_keysOf_pySet] at * <;> tauto

/-- Keys after the rating statement, when it does not abort. -/
theorem ldRating_keys {d d2 : ProductRecord} {kvs : List (String × Json)}
    (h : AlternativeTargetScraper.ldRating d kvs = some d2) :
    (∀ a ∈ keysOf d, a ∈ keysOf d2) ∧
    (∀ a ∈ keysOf d2, a ∈ keysOf d ∨ a = "Rating" ∨ a = "Review_Count") := by
  simp only [AlternativeTargetScraper.ldRating] at h
  repeat split at h
  all_goals cases h
  all_goals refine ⟨fun a ha => ?_, fun a ha => ?_⟩ <;>
    (first
      | (simp only [mem_keysOf_pySet] at *; tauto)
      | tauto)

/-- Keys after the image statement. -/
theorem ldImage_keys (d : ProductRecord) (kvs : List (String × Json)) :
    (∀ a ∈ keysOf d, a ∈ keysOf (AlternativeTargetScraper.ldImage d kvs)) ∧
    (∀ a ∈ keysOf (AlternativeTargetScraper.ldImage d kvs),
      a ∈ keysOf d ∨ a = "Image_URL") := by
  unfold AlternativeTargetScraper.ldImage
  repeat split
  all_goals refine ⟨fun a ha => ?_, fun a ha => ?_⟩ <;>
    simp only [mem_keysOf_pySet] at * <;> tauto

/-- Keys added by the JSON-LD Product branch: old keys are kept, only the
five listing fields can be added, and Title is always set. -/
theorem applyProductLd_keys {d0 : ProductRecord} {kvs : List (String × Json)}
    {d2 : ProductRecord} (h : AlternativeTargetScraper.applyProductLd d0 kvs = some d2) :
    (∀ a ∈ keysOf d0, a ∈ keysOf d2) ∧
    (∀ a ∈ keysOf d2, a ∈ keysOf d0 ∨
      a ∈ ["Title", "Price", "Rating", "Review_Count", "Image_URL"]) ∧
    "Title" ∈ keysOf d2 := by
  unfold AlternativeTargetScraper.applyProductLd at h
  rcases hr : AlternativeTargetScraper.ldRating
      (AlternativeTargetScraper.ldTitlePrice d0 kvs) kvs with _ | d3
  · rw [hr] at h
    exact absurd h (by simp)
  · rw [hr] at h
    injection h with he
    subst he
    have h1 := ldTitlePrice_keys d0 kvs
    have h2 := ldRating_keys hr
    have h3 := ldImage_keys d3 kvs
    refine ⟨fun a ha => h3.1 a (h2.1 a (h1.1 a ha)), fun a ha => ?_,
      h3.1 _ (h2.1 _ h1.2.2)⟩
    rcases h3.2 a ha with h4 | rfl
    · rcases h2.2 a h4 with h5 | h5
      · rcases h1.2.1 a h5 with h6 | h6
        · exact Or.inl h6
        · right
          simp only [List.mem_cons, List.not_mem_nil, or_false]
          tauto
      · right
        simp only [List.mem_cons, List.not_mem_nil, or_false]
        tauto
    · right
      simp

/-- Keys across the JSON-LD script loop: the old keys are kept and only
the five listing fields can be added. -/
theorem scanLd_keys :
    ∀ (scripts : List JScript) (d d2 : ProductRecord),
      AlternativeTargetScraper.scanLd d scripts = some d2 →
      (∀ a ∈ keysOf d, a ∈ keysOf d2) ∧
      (∀ a ∈ keysOf d2, a ∈ keysOf d ∨
        a ∈ ["Title", "Price", "Rating", "Review_Count", "Image_URL"]) := by
  intro scripts
  induction scripts with
  | nil =>
    intro d d2 h
    injection h with he
    subst he
    exact ⟨fun a ha => ha, fun a ha => Or.inl ha⟩
  | cons s rest ih =>
    intro d d2 h
    cases s with
    | noString => exact absurd h (by simp [AlternativeTargetScraper.scanLd])
    | invalid => exact ih d d2 h
    | valid j =>
      cases j with
      | obj kvs =>
        by_cases hty : (match lookupKV kvs "@type" with
            | some (Json.str s) => s == "Product"
            | _ => false) = true
        · have h2 : AlternativeTargetScraper.applyProductLd d kvs = some d2 := by
            simpa [AlternativeTargetScraper.scanLd, hty] using h
          have hk := applyProductLd_keys h2
          exact ⟨hk.1, hk.2.1⟩
        · have h2 : AlternativeTargetScraper.scanLd d rest = some d2 := by
            simpa [AlternativeTargetScraper.scanLd, hty] using h
          exact ih d d2 h2
      | null => exact ih d d2 h
      | bool b => exact ih d d2 h
      | int i => exact ih d d2 h
      | float q => exact ih d d2 h
      | str s => exact ih d d2 h
      | arr xs => exact ih d d2 h

/-- Keys across the title fallback: old keys kept, at most Title added,
and Title is present afterwards. -/
theorem titleFallback_keys (doc : AlternativeTargetScraper.HtmlDoc) (d : ProductRecord) :
    (∀ a ∈ keysOf d, a ∈ keysOf (AlternativeTargetScraper.titleFallback doc d)) ∧
    (∀ a ∈ keysOf (AlternativeTargetScraper.titleFallback doc d),
      a ∈ keysOf d ∨ a = "Title") ∧
    "Title" ∈ keysOf (AlternativeTargetScraper.titleFallback doc d) := by
  unfold AlternativeTargetScraper.titleFallback
  split
  · split
    · refine ⟨fun a ha => ?_, fun a ha => ?_, ?_⟩ <;>
        simp only [mem_keysOf_pySet] at * <;> tauto
    · split
      · refine ⟨fun a ha => ?_, fun a ha => ?_, ?_⟩ <;>
          simp only [mem_keysOf_pySet] at * <;> tauto
      · rename_i x v heq
        exact ⟨fun a ha => ha, fun a ha => Or.inl ha, mem_keysOf_of_lookupKV heq⟩
  · rename_i hcond
    refine ⟨fun a ha => ha, fun a ha => Or.inl ha, ?_⟩
    rcases hl : lookupKV d "Title" with _ | v
    · rw [hl] at hcond
      simp at hcond
    · exact mem_keysOf_of_lookupKV hl

/-- Keys across the defaults loop: old keys kept, at most the listed
fields added, and every listed field is present afterwards. -/
theorem setDefaults_keys :
    ∀ (fields : List String) (d : ProductRecord),
      (∀ a ∈ keysOf d, a ∈ keysOf (AlternativeTargetScraper.setDefaults d fields)) ∧
      (∀ a ∈ keysOf (AlternativeTargetScraper.setDefaults d fields),
        a ∈ keysOf d ∨ a ∈ fields) ∧
      (∀ f ∈ fields, f ∈ keysOf (AlternativeTargetScraper.setDefaults d fields)) := by
  intro fields
  induction fields with
  | nil =>
    intro d
    exact ⟨fun a ha => ha, fun a ha => Or.inl ha, fun f hf => absurd hf (List.not_mem_nil f)⟩
  | cons f rest ih =>
    intro d
    rcases hl : lookupKV d f with _ | v
    · have hstep : AlternativeTargetScraper.setDefaults d (f :: rest) =
          AlternativeTargetScraper.setDefaults (pySet d f (Json.str "N/A")) rest := by
        simp [AlternativeTargetScraper.setDefaults, hl]
      rw [hstep]
      rcases ih (pySet d f (Json.str "N/A")) with ⟨ih1, ih2, ih3⟩
      refine ⟨fun a ha => ih1 a (mem_keysOf_pySet.mpr (Or.inl ha)), fun a ha => ?_,
        fun g hg => ?_⟩
      · rcases ih2 a ha with h | h
        · rcases mem_keysOf_pySet.mp h with h2 | rfl
          · exact Or.inl h2
          · exact Or.inr (List.mem_cons_self a rest)
        · exact Or.inr (List.mem_cons_of_mem f h)
      · rcases List.mem_cons.mp hg with rfl | hg2
        · exact ih1 g (mem_keysOf_pySet.mpr (Or.inr rfl))
        · exact ih3 g hg2
    · have hstep : AlternativeTargetScraper.setDefaults d (f :: rest) =
          AlternativeTargetScraper.setDefaults d rest := by
        simp [AlternativeTargetScraper.setDefaults, hl]
      rw [hstep]
      rcases ih d with ⟨ih1, ih2, ih3⟩
      refine ⟨ih1, fun a ha => ?_, fun g hg => ?_⟩
      · rcases ih2 a ha with h | h
        · exact Or.inl h
        · exact Or.inr (List.mem_cons_of_mem f h)
      · rcases List.mem_cons.mp hg with rfl | hg2
        · exact ih1 g (mem_keysOf_of_lookupKV hl)
        · exact ih3 g hg2

/-- A product dict used to exhibit the fields of a parsed record. -/
def c2Item : Json := Json.obj [("tcin", Json.str "321"), ("title", Json.str "Yoobi Folder")]

/-- The record parse_product_json builds from c2Item. -/
def c2Rec : ProductRecord :=
  [("TCIN", Json.str "321"), ("Title", Json.str "Yoobi Folder"), ("Image_URL", Json.str "N/A"),
   ("Price", Json.str "N/A"), ("Rating", Json.str "N/A"), ("Review_Count", Json.str "N/A"),
   ("URL", Json.str "https://www.target.com/p/-/A-321")]

/-- Counterexample to claim C2: a concrete scraped record carries exactly
TCIN, Title, Image_URL, Price, Rating, Review_Count and URL — no key of
the record is a sponsorship flag (none even mentions "spons"). -/
theorem claim_C2_counterexample :
    TargetScraper.parse_product_json c2Item = some c2Rec ∧
    keysOf c2Rec = ["TCIN", "Title", "Image_URL", "Price", "Rating", "Review_Count", "URL"] ∧
    (keysOf c2Rec).all (fun k => !(strContains (pyLower k) "spons")) = true :=
  ⟨rfl, rfl, by decide⟩

/-- Claim C2 as amended: every record produced by the scraper carries the
title, image, price, rating and review-count fields (plus TCIN and URL),
and nothing else — in particular no sponsorship flag.  For
parse_product_json the keys are exactly the seven in order; for
scrape_individual_product they are the same seven as a set. -/
theorem claim_C2_amended :
    (∀ (d : Json) (r : ProductRecord), TargetScraper.parse_product_json d = some r →
      keysOf r = ["TCIN", "Title", "Image_URL", "Price", "Rating", "Review_Count", "URL"]) ∧
    (∀ (fetch : String → AlternativeTargetScraper.PageResult) (product_url : String)
        (r : ProductRecord),
      AlternativeTargetScraper.scrape_individual_product fetch product_url = some r →
      (∀ k ∈ (["TCIN", "URL", "Title", "Price", "Rating", "Review_Count", "Image_URL"] :
          List String), k ∈ keysOf r) ∧
      (∀ k ∈ keysOf r,
        k ∈ (["TCIN", "URL", "Title", "Price", "Rating", "Review_Count", "Image_URL"] :
          List String))) := by
  constructor
  · intro d r h
    rcases parse_product_json_shape d r h with ⟨t, ti, im, pr, ra, rc, u, hr, _⟩
    subst hr
    rfl
  · intro fetch product_url r h
    simp only [AlternativeTargetScraper.scrape_individual_product] at h
    rcases hf : fetch product_url with _ | ⟨status, doc⟩ <;> simp only [hf] at h
    · exact absurd h (by simp)
    · split at h
      · exact absurd h (by simp)
      · rcases hscan : AlternativeTargetScraper.scanLd
            (AlternativeTargetScraper.initialRecord product_url) doc.ldScripts with _ | d1 <;>
          simp only [hscan] at h
        · exact absurd h (by simp)
        · injection h with he
          subst he
          have hS := scanLd_keys doc.ldScripts
            (AlternativeTargetScraper.initialRecord product_url) d1 hscan
          have hT := titleFallback_keys doc d1
          have hD := setDefaults_keys ["Price", "Rating", "Review_Count", "Image_URL"]
            (AlternativeTargetScraper.titleFallback doc d1)
          have h0 : ∀ a, a ∈ keysOf (AlternativeTargetScraper.initialRecord product_url) ↔
              (a = "TCIN" ∨ a = "URL") := by
            intro a
            show a ∈ ["TCIN", "URL"] ↔ _
            simp
          constructor
          · intro k hk
            fin_cases hk
            · exact hD.1 _ (hT.1 _ (hS.1 _ ((h0 "TCIN").mpr (Or.inl rfl))))
            · exact hD.1 _ (hT.1 _ (hS.1 _ ((h0 "URL").mpr (Or.inr rfl))))
            · exact hD.1 _ hT.2.2
            · exact hD.2.2 _ (by simp)
            · exact hD.2.2 _ (by simp)
            · exact hD.2.2 _ (by simp)
            · exact hD.2.2 _ (by simp)
          · intro k hk
            rcases hD.2.1 k hk with h2 | h2
            · rcases hT.2.1 k h2 with h3 | rfl
              · rcases hS.2 k h3 with h4 | h4
                · rcases (h0 k).mp h4 with rfl | rfl
                  · simp
                  · simp
                · simp at h4 ⊢
                  tauto
              · simp
            · simp at h2 ⊢
              tauto

/-- The product URL used to exercise the manual scraper. -/
def c2wUrl : String := "https://www.target.com/p/-/A-54321"

/-- The record scrape_individual_product builds for c2wUrl on a page with
no JSON-LD data and no matching selector. -/
def c2wRec : ProductRecord :=
  [("TCIN", Json.str "54321"), ("URL", Json.str c2wUrl), ("Title", Json.str "N/A"),
   ("Price", Json.str "N/A"), ("Rating", Json.str "N/A"), ("Review_Count", Json.str "N/A"),
   ("Image_URL", Json.str "N/A")]

/-- Concrete instance of the amended claim C2 on both scraper paths. -/
theorem claim_C2_amended_witness :
    keysOf c2Rec = ["TCIN", "Title", "Image_URL", "Price", "Rating", "Review_Count", "URL"] ∧
    ((∀ k ∈ (["TCIN", "URL", "Title", "Price", "Rating", "Review_Count", "Image_URL"] :
        List String), k ∈ keysOf c2wRec) ∧
     (∀ k ∈ keysOf c2wRec,
       k ∈ (["TCIN", "URL", "Title", "Price", "Rating", "Review_Count", "Image_URL"] :
        List String))) :=
  ⟨claim_C2_amended.1 c2Item c2Rec rfl,
   claim_C2_amended.2 (fun _ => AlternativeTargetScraper.PageResult.ok 200 ⟨[], []⟩)
     c2wUrl c2wRec rfl⟩
